import Mathlib

/-!
Shallow embedding of the Listar-Tareas single-page application
(`src/routes/route.js`, current revision, together with the service layer
`src/services/userService.js`).  The browser state that the handlers read
and write (the `localStorage` key-value store, the module-level task-board
variables, and the three kanban column lists of the DOM) is modelled as
explicit state records; each event handler becomes a state-passing
function.  The outcome of a remote call (`deleteTask`, …) is passed in as
an explicit success flag, and the fact that a handler issued a network
call is part of its result.
-/

namespace ListarTareas

/-! ## localStorage and the hash router (`handleRoute`, route.js) -/

/-- The `localStorage` keys the current revision of the router and the
login handler use: `userData` (the persisted session record, stored as a
JSON string), `pendingRoute` (one-shot deferred navigation target) and
`footerNavClick` (one-shot marker that navigation came from the footer). -/
structure StorageState where
  userData : Option String
  pendingRoute : Option String
  footerNavClick : Option String
deriving DecidableEq

/-- `const known = ["home", "board", "register", "forgot", "about-us"]`. -/
def knownRoutes : List String := ["home", "board", "register", "forgot", "about-us"]

/-- JS `String.prototype.startsWith`, character-wise. -/
def strStartsWith (s pre : String) : Bool :=
  pre.data.isPrefixOf s.data

/-- JS `String.prototype.slice(n)` for a non-negative start index:
drop the first `n` characters. -/
def strDrop (s : String) (n : Nat) : String :=
  ⟨s.data.drop n⟩

/-- `(location.hash.startsWith("#/") ? location.hash.slice(2) : "") || "home"`:
the path extracted from the URL fragment, with the empty string (a falsy
value in JS) replaced by `"home"`. -/
def parsePath (hash : String) : String :=
  let raw := if strStartsWith hash "#/" then strDrop hash 2 else ""
  if raw = "" then "home" else raw

/-- The body of `handleRoute` after path extraction: resolve the route
against the known list, then apply the session gate for `board` /
`about-us`.  Returns the view finally loaded, the updated storage, and
whether the deferred "Inicia sesión" message was scheduled. -/
def handleRouteCore (path : String) (st : StorageState) : String × StorageState × Bool :=
  let route := if path ∈ knownRoutes then path else "home"
  if route = "board" ∨ route = "about-us" then
    match st.userData with
    | none =>
        let fromFooter := st.footerNavClick = some "1"
        let st1 : StorageState := { st with pendingRoute := some route }
        if fromFooter then ("home", { st1 with footerNavClick := none }, true)
        else ("home", st1, false)
    | some _ => (route, { st with footerNavClick := none }, false)
  else (route, st, false)

/-- `handleRoute`: read the current hash, extract the path, resolve. -/
def handleRoute (hash : String) (st : StorageState) : String × StorageState × Bool :=
  handleRouteCore (parsePath hash) st

/-- The success branch of the login submit handler in `initHome` when the
backend returned a `user` object: persist `userData`, then consume
`pendingRoute` if present (removing the key and navigating to
`"#/" + pendingRoute`), else navigate to `"#/board"`.  Returns the
navigation target hash and the updated storage. -/
def loginSuccess (st : StorageState) (userJson : String) : String × StorageState :=
  let st1 : StorageState := { st with userData := some userJson }
  match st1.pendingRoute with
  | some pr => ("#/" ++ pr, { st1 with pendingRoute := none })
  | none => ("#/board", st1)

/-! ## Status vocabulary translation (task form submit handler and
`loadTasksFromDatabase`, route.js) -/

/-- `statusMap` (front → back); JS object lookup, `none` models
`undefined`. -/
def statusMap (s : String) : Option String :=
  if s = "todo" then some "Por Hacer"
  else if s = "doing" then some "Haciendo"
  else if s = "done" then some "Hecho"
  else none

/-- `reverseStatusMap` (back → front). -/
def reverseStatusMap (s : String) : Option String :=
  if s = "Por Hacer" then some "todo"
  else if s = "Haciendo" then some "doing"
  else if s = "Hecho" then some "done"
  else none

/-- `statusMap[status] || status`: the status sent to the backend. -/
def toBackendStatus (s : String) : String := (statusMap s).getD s

/-- A task record as the board handles it: `_id` plus the five form
fields.  `status` holds a frontend code or (fallback) a raw backend
label. -/
structure Task where
  _id : String
  title : String
  details : String
  date : String
  time : String
  status : String
deriving DecidableEq

/-- `loadTasksFromDatabase`: each inbound task becomes
`{ ...task, status: reverseStatusMap[task.status] || task.status }`. -/
def frontendTaskFromLoad (t : Task) : Task :=
  { t with status := (reverseStatusMap t.status).getD t.status }

/-- The task-form submit handler builds the frontend task from a
`CreateTask`/`updateTask` response as
`{ ...taskResult, status: reverseStatusMap[taskResult.status] || status }`,
where `status` is the value read from the form. -/
def frontendTaskFromSubmit (formStatus : String) (t : Task) : Task :=
  { t with status := (reverseStatusMap t.status).getD formStatus }

/-! ## The three kanban columns (`checkEmptyColumns`, `addTaskToDOM` and
the delete flow DOM removal, route.js) -/

/-- The three column containers `todo-tasks`, `doing-tasks`,
`done-tasks`. -/
inductive ColId where
  | todo
  | doing
  | done
deriving DecidableEq

/-- A child node of a column container: a rendered task card (carrying
`data-task-id` and the task's fields) or a synthesized
`.empty-state` placeholder with its message text. -/
inductive Node where
  | taskItem (t : Task)
  | emptyState (msg : String)
deriving DecidableEq

abbrev Column := List Node

/-- The children lists of the three column containers. -/
structure Columns where
  todo : Column
  doing : Column
  done : Column
deriving DecidableEq

def getCol (b : Columns) : ColId → Column
  | .todo => b.todo
  | .doing => b.doing
  | .done => b.done

/-- The fixed per-column `emptyStateMessages` object. -/
def emptyStateMessages : ColId → String
  | .todo => "No hay tareas pendientes"
  | .doing => "No hay tareas en progreso"
  | .done => "No hay tareas completadas"

/-- `document.getElementById(status + "-tasks")`: only the three known
status codes name an existing column container. -/
def colOfStatus (s : String) : Option ColId :=
  if s = "todo" then some .todo
  else if s = "doing" then some .doing
  else if s = "done" then some .done
  else none

def isEmptyStateNode : Node → Bool
  | .taskItem _ => false
  | .emptyState _ => true

/-- `taskList.querySelector(".empty-state")` followed by `.remove()`:
drop the first placeholder node, keep everything else. -/
def removeFirstEmptyState : Column → Column
  | [] => []
  | n :: rest => if isEmptyStateNode n then rest else n :: removeFirstEmptyState rest

/-- `checkEmptyColumns` body for one column: if the container has zero
children, append one `.empty-state` div with the column's message. -/
def checkEmptyColumn (c : ColId) (col : Column) : Column :=
  if col.length = 0 then [Node.emptyState (emptyStateMessages c)] else col

/-- `checkEmptyColumns`: run the check over `todo`, `doing`, `done`. -/
def checkEmptyColumns (b : Columns) : Columns :=
  { todo := checkEmptyColumn .todo b.todo
    doing := checkEmptyColumn .doing b.doing
    done := checkEmptyColumn .done b.done }

/-- The column-level effect of `addTaskToDOM`: remove the `.empty-state`
placeholder if present, then append the task card. -/
def addTaskToColumn (t : Task) (col : Column) : Column :=
  removeFirstEmptyState col ++ [Node.taskItem t]

/-- `addTaskToDOM(task)`: look up the container for `task.status`; when
it exists, remove its placeholder (if any) and append the card; when it
does not (unknown status), do nothing. -/
def addTaskToDOM (t : Task) (b : Columns) : Columns :=
  match colOfStatus t.status with
  | none => b
  | some .todo => { b with todo := addTaskToColumn t b.todo }
  | some .doing => { b with doing := addTaskToColumn t b.doing }
  | some .done => { b with done := addTaskToColumn t b.done }

/-- Whether a node is the card of the task with id `tid`
(`[data-task-id="<tid>"]`); placeholders carry no such attribute. -/
def nodeHasTaskId (tid : String) : Node → Bool
  | .taskItem t => t._id = tid
  | .emptyState _ => false

/-- Remove the first card with the given id from one column. -/
def removeFirstTaskWithId (tid : String) : Column → Column
  | [] => []
  | n :: rest => if nodeHasTaskId tid n then rest else n :: removeFirstTaskWithId tid rest

/-- `document.querySelector("[data-task-id=...]")?.remove()`: remove the
first matching card in document order (todo, doing, done). -/
def removeTaskFromDOM (tid : String) (b : Columns) : Columns :=
  if b.todo.any (nodeHasTaskId tid) then { b with todo := removeFirstTaskWithId tid b.todo }
  else if b.doing.any (nodeHasTaskId tid) then { b with doing := removeFirstTaskWithId tid b.doing }
  else if b.done.any (nodeHasTaskId tid) then { b with done := removeFirstTaskWithId tid b.done }
  else b

/-- Number of `.empty-state` placeholder nodes in a column. -/
def placeholderCount (col : Column) : Nat := (col.filter isEmptyStateNode).length

/-- Whether a column shows a placeholder. -/
def hasEmptyState (col : Column) : Bool := col.any isEmptyStateNode

/-- Whether a column shows a real task card. -/
def hasTaskItem (col : Column) : Bool := col.any fun n => ! isEmptyStateNode n

/-- The empty-column invariant for one column: at most one placeholder,
and never a placeholder and a task card together. -/
def colWellFormed (col : Column) : Prop :=
  placeholderCount col ≤ 1 ∧ ¬(hasEmptyState col = true ∧ hasTaskItem col = true)

/-- The invariant over the three columns. -/
def boardWellFormed (b : Columns) : Prop :=
  colWellFormed b.todo ∧ colWellFormed b.doing ∧ colWellFormed b.done

instance (col : Column) : Decidable (colWellFormed col) :=
  inferInstanceAs (Decidable (_ ∧ _))

instance (b : Columns) : Decidable (boardWellFormed b) :=
  inferInstanceAs (Decidable (_ ∧ _))

/-! ## Task-board UI state and its handlers (route.js, `initBoard`) -/

/-- The six fields of the task form (`taskId` is the hidden field). -/
structure TaskFormState where
  taskId : String
  title : String
  details : String
  date : String
  time : String
  status : String
deriving DecidableEq

/-- `form.reset()` followed by clearing the hidden `taskId` field. -/
def clearedTaskForm : TaskFormState := ⟨"", "", "", "", "", ""⟩

/-- The task-board state a handler can touch: the module-level variables
`currentTaskId`, `currentTaskData`, `isEditMode`, the task form, the two
modal visibility flags with the modal title / save-button label, and the
three columns. -/
structure BoardState where
  currentTaskId : Option String
  currentTaskData : Option Task
  isEditMode : Bool
  taskForm : TaskFormState
  taskModalTitle : String
  saveTaskBtnText : String
  taskModalShown : Bool
  deleteModalShown : Bool
  columns : Columns
deriving DecidableEq

/-- `resetTaskForm` (current revision): reset the form, clear the hidden
`taskId` field, null out `currentTaskId` / `currentTaskData`, leave edit
mode, restore the create-mode title and button label. -/
def resetTaskForm (st : BoardState) : BoardState :=
  { st with taskForm := clearedTaskForm
            currentTaskId := none
            currentTaskData := none
            isEditMode := false
            taskModalTitle := "Crear Tarea"
            saveTaskBtnText := "Guardar" }

/-- `newTaskBtn` click: `resetTaskForm(); showModal(taskModal)`. -/
def newTaskBtnClick (st : BoardState) : BoardState :=
  { resetTaskForm st with taskModalShown := true }

/-- `cancelBtn` click: `resetTaskForm(); hideModal(taskModal)`. -/
def cancelBtnClick (st : BoardState) : BoardState :=
  { resetTaskForm st with taskModalShown := false }

/-- Window click on the task-modal backdrop: same as cancel. -/
def taskModalOutsideClick (st : BoardState) : BoardState :=
  { resetTaskForm st with taskModalShown := false }

/-- `cancelDeleteBtn` click: hide the delete modal and null out
`currentTaskId` / `currentTaskData`. -/
def cancelDeleteBtnClick (st : BoardState) : BoardState :=
  { st with deleteModalShown := false, currentTaskId := none, currentTaskData := none }

/-- `confirmDeleteBtn` click.  `deleteSucceeds` is the outcome of the
awaited `deleteTask` call; the returned flag records whether that call
was issued.  Guarded by `if (currentTaskId)`; on success the card is
removed, columns re-checked, modal hidden and the identity cleared; on
failure the `catch` block only logs and alerts, touching no state. -/
def confirmDeleteBtnClick (st : BoardState) (deleteSucceeds : Bool) : BoardState × Bool :=
  match st.currentTaskId with
  | none => (st, false)
  | some tid =>
      if deleteSucceeds then
        ({ st with columns := checkEmptyColumns (removeTaskFromDOM tid st.columns)
                   deleteModalShown := false
                   currentTaskId := none
                   currentTaskData := none }, true)
      else (st, true)

/-! ## Registration submit handler (`initRegister`, route.js) -/

/-- A JS regex `.`-matchable character (no line terminators). -/
def jsDotChar (c : Char) : Bool :=
  c ≠ '\n' && c ≠ '\r' && c ≠ '\u2028' && c ≠ '\u2029'

def isAsciiLower (c : Char) : Bool := 'a' ≤ c && c ≤ 'z'
def isAsciiUpper (c : Char) : Bool := 'A' ≤ c && c ≤ 'Z'
def isAsciiDigit (c : Char) : Bool := '0' ≤ c && c ≤ '9'

/-- The class `[\W_]` = not an ASCII letter or digit. -/
def isSymbolChar (c : Char) : Bool :=
  !(isAsciiLower c || isAsciiUpper c || isAsciiDigit c)

/-- `^(?=.*[a-z])(?=.*[A-Z])(?=.*\d)(?=.*[\W_]).{8,}$` : at least 8
characters, none a line terminator, with a lowercase letter, an
uppercase letter, a digit and a non-alphanumeric character. -/
def passwordRegexTest (p : String) : Bool :=
  p.length ≥ 8 && p.data.all jsDotChar
    && p.data.any isAsciiLower && p.data.any isAsciiUpper
    && p.data.any isAsciiDigit && p.data.any isSymbolChar

/-- The character set removed by JS `String.prototype.trim` (whitespace
and line terminators; the common members). -/
def jsTrimChar (c : Char) : Bool :=
  c = ' ' || c = '\t' || c = '\n' || c = '\r' || c = '\x0b' || c = '\x0c'
    || c = '\u00a0' || c = '\u2028' || c = '\u2029' || c = '\ufeff'

/-- JS `String.prototype.trim`, character-wise. -/
def strTrim (s : String) : String :=
  ⟨((s.data.dropWhile jsTrimChar).reverse.dropWhile jsTrimChar).reverse⟩

/-- The body `registerUser` receives (`bio` is always `""`). -/
structure RegisterPayload where
  username : String
  lastname : String
  birthdate : String
  email : String
  password : String
  bio : String
deriving DecidableEq

/-- Outcome of one run of the registration submit handler up to the
point where it either returns locally or issues the `registerUser`
call: the message text placed in `registerMsg` and the payload of the
network call, if one was issued. -/
structure RegisterResult where
  message : String
  networkCall : Option RegisterPayload
deriving DecidableEq

/-- The `initRegister` submit handler (current revision): trim the six
fields, reject if any is empty, then reject if the password fails the
strength regex, then reject if password and confirmation differ, else
call `registerUser` (on whose resolution the message later becomes
"Registro exitoso"). -/
def registerSubmit (usernameRaw lastnameRaw birthdateRaw emailRaw passwordRaw confirmRaw :
    String) : RegisterResult :=
  let username := strTrim usernameRaw
  let lastname := strTrim lastnameRaw
  let birthdate := strTrim birthdateRaw
  let email := strTrim emailRaw
  let password := strTrim passwordRaw
  let confirmPassword := strTrim confirmRaw
  if username = "" ∨ lastname = "" ∨ birthdate = "" ∨ email = "" ∨ password = ""
      ∨ confirmPassword = "" then
    { message := "Por favor completa todos los campos.", networkCall := none }
  else if ¬ passwordRegexTest password then
    { message := "La contraseña debe tener mínimo 8 caracteres, incluir mayúsculas, minúsculas, números y símbolos."
      networkCall := none }
  else if password ≠ confirmPassword then
    { message := "Las contraseñas no coinciden.", networkCall := none }
  else
    { message := ""
      networkCall := some ⟨username, lastname, birthdate, email, password, ""⟩ }

/-! ## Claim theorems (first batch) -/

/-- Claim C1: navigating to a session-gated view (`board` or `about-us`)
with no persisted session loads the default view `home` and stores the
requested view under `pendingRoute`; a subsequent successful login
navigates to exactly `"#/" ++ view`, removes `pendingRoute`, and a
second login (the marker being consumed) navigates to the default
`"#/board"` instead. -/
theorem sessionGatePendingRoute (view : String) (st : StorageState) (u u' : String)
    (hview : view = "board" ∨ view = "about-us") (hsess : st.userData = none) :
    (handleRouteCore view st).1 = "home"
    ∧ (handleRouteCore view st).2.1.pendingRoute = some view
    ∧ (loginSuccess (handleRouteCore view st).2.1 u).1 = "#/" ++ view
    ∧ (loginSuccess (handleRouteCore view st).2.1 u).2.pendingRoute = none
    ∧ (loginSuccess (loginSuccess (handleRouteCore view st).2.1 u).2 u').1 = "#/board" := by
  have hmem : view ∈ knownRoutes := by
    rcases hview with rfl | rfl <;> simp [knownRoutes]
  have hroute : (if view ∈ knownRoutes then view else "home") = view := if_pos hmem
  unfold handleRouteCore
  rw [hroute, if_pos hview, hsess]
  by_cases hf : st.footerNavClick = some "1" <;>
    simp [hf, loginSuccess]

theorem sessionGatePendingRoute_witness :
    ("board" = "board" ∨ "board" = "about-us")
    ∧ (StorageState.mk none none none).userData = none
    ∧ ((handleRouteCore "board" ⟨none, none, none⟩).1 = "home"
      ∧ (handleRouteCore "board" ⟨none, none, none⟩).2.1.pendingRoute = some "board"
      ∧ (loginSuccess (handleRouteCore "board" ⟨none, none, none⟩).2.1 "u").1 = "#/" ++ "board"
      ∧ (loginSuccess (handleRouteCore "board" ⟨none, none, none⟩).2.1 "u").2.pendingRoute = none
      ∧ (loginSuccess (loginSuccess (handleRouteCore "board" ⟨none, none, none⟩).2.1 "u").2 "v").1
          = "#/board") :=
  ⟨Or.inl rfl, rfl, sessionGatePendingRoute "board" ⟨none, none, none⟩ "u" "v"
    (Or.inl rfl) rfl⟩

/-- Claim C8: a hash whose extracted path is not in the known list
resolves to the default view `home`, and so does the empty fragment. -/
theorem unknownRouteFallback (hash : String) (st : StorageState) :
    (parsePath hash ∉ knownRoutes → (handleRoute hash st).1 = "home")
    ∧ (handleRoute "" st).1 = "home" := by
  constructor
  · intro h
    unfold handleRoute handleRouteCore
    rw [if_neg h]
    simp
  · have hp : parsePath "" = "home" := by decide
    unfold handleRoute handleRouteCore
    rw [hp]
    simp [knownRoutes]

theorem unknownRouteFallback_witness :
    "profile" ∉ knownRoutes
    ∧ (handleRoute "#/profile" ⟨none, none, none⟩).1 = "home"
    ∧ (handleRoute "" ⟨none, none, none⟩).1 = "home" := by
  refine ⟨by decide, ?_, (unknownRouteFallback "#/profile" ⟨none, none, none⟩).2⟩
  exact (unknownRouteFallback "#/profile" ⟨none, none, none⟩).1 (by decide)

/-- No string of length above 8 is a known route name (the longest known
names, `register` and `about-us`, have 8 characters). -/
theorem not_known_of_long (s : String) (h : 8 < s.length) : s ∉ knownRoutes := by
  intro hmem
  simp only [knownRoutes, List.mem_cons, List.mem_singleton] at hmem
  rcases hmem with rfl | rfl | rfl | rfl | rfl | h' <;> first
    | exact absurd h (by decide)
    | exact absurd h' (List.not_mem_nil _)

/-- Claim C4 counterexample: the token-bearing reset-password fragment is
routed to `home`, not to a reset-password view — even with a session
persisted.  `handleRoute` has no reset-password case and
`"reset-password?token=abc"` is not in the known list. -/
theorem resetPasswordRouteCounterexample :
    (handleRoute "#/reset-password?token=abc" ⟨some "u", none, none⟩).1 = "home"
    ∧ (handleRoute "#/reset-password?token=abc" ⟨some "u", none, none⟩).1
        ≠ "reset-password" := by
  decide

/-- Claim C4 amended: every path beginning with `reset-password` —
whatever the trailing token-bearing suffix, and whatever the storage —
falls back to the default view `home`, because no such path is in the
known route list. -/
theorem resetPasswordPathFallsBack (suffix : String) (st : StorageState) :
    (handleRouteCore ("reset-password" ++ suffix) st).1 = "home" := by
  have hlen : 8 < ("reset-password" ++ suffix).length := by
    rw [String.length_append]
    have h14 : ("reset-password" : String).length = 14 := by decide
    rw [h14]
    omega
  have hnot := not_known_of_long _ hlen
  unfold handleRouteCore
  rw [if_neg hnot]
  simp

/-- Claim C5 counterexample: in the task-form submit path, a
`CreateTask`/`updateTask` response whose status label is unknown
(`"Urgente"`) is NOT passed through unchanged: the frontend task's status
falls back to the form's status (`"todo"`), not to the backend label. -/
theorem unknownStatusSubmitCounterexample :
    (frontendTaskFromSubmit "todo" ⟨"1", "T", "D", "2024-01-15", "14:30", "Urgente"⟩).status
        = "todo"
    ∧ (frontendTaskFromSubmit "todo" ⟨"1", "T", "D", "2024-01-15", "14:30", "Urgente"⟩).status
        ≠ "Urgente"
    ∧ reverseStatusMap "Urgente" = none := by
  decide

/-- Claim C5 amended: an inbound task with an unrecognized backend status
label raises no error; on the initial `getUserTasks` load the label is
passed through unchanged (identity fallback), while on a
`CreateTask`/`updateTask` response the fallback is the status the form
submitted, not the backend label.  All other fields pass unchanged. -/
theorem unknownStatusFallback (t : Task) (formStatus : String)
    (h : reverseStatusMap t.status = none) :
    frontendTaskFromLoad t = t
    ∧ (frontendTaskFromSubmit formStatus t).status = formStatus := by
  unfold frontendTaskFromLoad frontendTaskFromSubmit
  rw [h]
  exact ⟨rfl, rfl⟩

theorem unknownStatusFallback_witness :
    reverseStatusMap ("Urgente" : String) = none
    ∧ (frontendTaskFromLoad ⟨"1", "T", "D", "d", "h", "Urgente"⟩
          = ⟨"1", "T", "D", "d", "h", "Urgente"⟩
      ∧ (frontendTaskFromSubmit "doing" ⟨"1", "T", "D", "d", "h", "Urgente"⟩).status
          = "doing") :=
  ⟨by decide, unknownStatusFallback ⟨"1", "T", "D", "d", "h", "Urgente"⟩ "doing" (by decide)⟩

/-- Claim C9: `resetTaskForm` — directly and as run by the cancel
button, a click outside the task modal, and the new-task button —
restores the board UI state to empty: `currentTaskId` and
`currentTaskData` become null, `isEditMode` becomes false, and the form
(including the hidden `taskId` field) is cleared.  The embedded handler
is a total function: the reset completes on every state. -/
theorem resetTaskFormClears (st : BoardState) :
    ((resetTaskForm st).currentTaskId = none
      ∧ (resetTaskForm st).currentTaskData = none
      ∧ (resetTaskForm st).isEditMode = false
      ∧ (resetTaskForm st).taskForm = clearedTaskForm)
    ∧ ((cancelBtnClick st).currentTaskId = none
      ∧ (cancelBtnClick st).currentTaskData = none
      ∧ (cancelBtnClick st).isEditMode = false
      ∧ (cancelBtnClick st).taskForm = clearedTaskForm
      ∧ (cancelBtnClick st).taskModalShown = false)
    ∧ ((taskModalOutsideClick st).currentTaskId = none
      ∧ (taskModalOutsideClick st).currentTaskData = none
      ∧ (taskModalOutsideClick st).isEditMode = false
      ∧ (taskModalOutsideClick st).taskForm = clearedTaskForm)
    ∧ ((newTaskBtnClick st).currentTaskId = none
      ∧ (newTaskBtnClick st).currentTaskData = none
      ∧ (newTaskBtnClick st).isEditMode = false
      ∧ (newTaskBtnClick st).taskForm = clearedTaskForm) :=
  ⟨⟨rfl, rfl, rfl, rfl⟩, ⟨rfl, rfl, rfl, rfl, rfl⟩, ⟨rfl, rfl, rfl, rfl⟩,
    ⟨rfl, rfl, rfl, rfl⟩⟩

/-- Claim C3 counterexample: when the confirmed delete's `deleteTask`
call fails, the recorded identity is NOT cleared — `currentTaskId` and
`currentTaskData` keep their values (the `catch` block only logs and
alerts). -/
theorem deleteFailureRetainsIdentityCounterexample :
    (confirmDeleteBtnClick
        ⟨some "t1", some ⟨"t1", "T", "D", "d", "h", "todo"⟩, false, clearedTaskForm,
          "Crear Tarea", "Guardar", false, true,
          ⟨[Node.taskItem ⟨"t1", "T", "D", "d", "h", "todo"⟩], [], []⟩⟩
        false).1.currentTaskId ≠ none
    ∧ (confirmDeleteBtnClick
        ⟨some "t1", some ⟨"t1", "T", "D", "d", "h", "todo"⟩, false, clearedTaskForm,
          "Crear Tarea", "Guardar", false, true,
          ⟨[Node.taskItem ⟨"t1", "T", "D", "d", "h", "todo"⟩], [], []⟩⟩
        false).1.currentTaskData ≠ none := by
  decide

/-- Claim C3 amended: cancel clears the recorded task identity and
snapshot (and hides the modal); a confirmed delete whose `deleteTask`
call succeeds clears them (and hides the modal); but a confirmed delete
whose call fails leaves the whole board state unchanged — identity and
snapshot are retained and the modal stays open. -/
theorem deleteConfirmFlowIdentity (st : BoardState) (tid : String)
    (hid : st.currentTaskId = some tid) :
    ((cancelDeleteBtnClick st).currentTaskId = none
      ∧ (cancelDeleteBtnClick st).currentTaskData = none
      ∧ (cancelDeleteBtnClick st).deleteModalShown = false)
    ∧ ((confirmDeleteBtnClick st true).1.currentTaskId = none
      ∧ (confirmDeleteBtnClick st true).1.currentTaskData = none
      ∧ (confirmDeleteBtnClick st true).1.deleteModalShown = false)
    ∧ (confirmDeleteBtnClick st false).1 = st := by
  refine ⟨⟨rfl, rfl, rfl⟩, ?_, ?_⟩ <;>
    simp [confirmDeleteBtnClick, hid]

theorem deleteConfirmFlowIdentity_witness :
    (BoardState.currentTaskId
        ⟨some "t1", none, false, clearedTaskForm, "Crear Tarea", "Guardar", false, true,
          ⟨[], [], []⟩⟩ = some "t1")
    ∧ ((cancelDeleteBtnClick
          ⟨some "t1", none, false, clearedTaskForm, "Crear Tarea", "Guardar", false, true,
            ⟨[], [], []⟩⟩).currentTaskId = none
      ∧ (confirmDeleteBtnClick
          ⟨some "t1", none, false, clearedTaskForm, "Crear Tarea", "Guardar", false, true,
            ⟨[], [], []⟩⟩ true).1.currentTaskId = none
      ∧ (confirmDeleteBtnClick
          ⟨some "t1", none, false, clearedTaskForm, "Crear Tarea", "Guardar", false, true,
            ⟨[], [], []⟩⟩ false).1
          = ⟨some "t1", none, false, clearedTaskForm, "Crear Tarea", "Guardar", false, true,
            ⟨[], [], []⟩⟩) := by
  have h := deleteConfirmFlowIdentity
    ⟨some "t1", none, false, clearedTaskForm, "Crear Tarea", "Guardar", false, true,
      ⟨[], [], []⟩⟩ "t1" rfl
  exact ⟨rfl, h.1.1, h.2.1.1, h.2.2⟩

/-- Claim C10: when no task identity is recorded (`currentTaskId` is
null), the confirm-delete handler is a no-op: `deleteTask` is not called
(the issued-call flag is `false`) and the state — columns, modal
visibility, everything — is returned unchanged. -/
theorem confirmDeleteNoopWithoutId (st : BoardState) (deleteSucceeds : Bool)
    (h : st.currentTaskId = none) :
    confirmDeleteBtnClick st deleteSucceeds = (st, false) := by
  unfold confirmDeleteBtnClick
  rw [h]

theorem confirmDeleteNoopWithoutId_witness :
    (BoardState.currentTaskId
        ⟨none, none, false, clearedTaskForm, "Crear Tarea", "Guardar", false, true,
          ⟨[], [], []⟩⟩ = none)
    ∧ confirmDeleteBtnClick
        ⟨none, none, false, clearedTaskForm, "Crear Tarea", "Guardar", false, true,
          ⟨[], [], []⟩⟩ true
      = (⟨none, none, false, clearedTaskForm, "Crear Tarea", "Guardar", false, true,
          ⟨[], [], []⟩⟩, false) :=
  ⟨rfl, confirmDeleteNoopWithoutId _ true rfl⟩

/-- Claim C2: for each of the three canonical frontend status codes,
translating to the backend vocabulary via `statusMap` and back via
`reverseStatusMap` (each lookup with its `|| fallback`) yields the
original code; symmetrically for the three backend labels. -/
theorem statusRoundTrip :
    ((reverseStatusMap (toBackendStatus "todo")).getD (toBackendStatus "todo") = "todo"
      ∧ (reverseStatusMap (toBackendStatus "doing")).getD (toBackendStatus "doing") = "doing"
      ∧ (reverseStatusMap (toBackendStatus "done")).getD (toBackendStatus "done") = "done")
    ∧ (toBackendStatus ((reverseStatusMap "Por Hacer").getD "Por Hacer") = "Por Hacer"
      ∧ toBackendStatus ((reverseStatusMap "Haciendo").getD "Haciendo") = "Haciendo"
      ∧ toBackendStatus ((reverseStatusMap "Hecho").getD "Hecho") = "Hecho") := by
  decide

/-! ## Column invariant lemmas (for the empty-column policy) -/

theorem removeFirstEmptyState_sublist (col : Column) :
    List.Sublist (removeFirstEmptyState col) col := by
  induction col with
  | nil => exact List.Sublist.refl _
  | cons n rest ih =>
      unfold removeFirstEmptyState
      by_cases h : isEmptyStateNode n = true
      · rw [if_pos h]; exact List.sublist_cons_self n rest
      · rw [if_neg h]; exact ih.cons₂ n

theorem removeFirstTaskWithId_sublist (tid : String) (col : Column) :
    List.Sublist (removeFirstTaskWithId tid col) col := by
  induction col with
  | nil => exact List.Sublist.refl _
  | cons n rest ih =>
      unfold removeFirstTaskWithId
      by_cases h : nodeHasTaskId tid n = true
      · rw [if_pos h]; exact List.sublist_cons_self n rest
      · rw [if_neg h]; exact ih.cons₂ n

theorem placeholderCount_le_of_sublist {col col' : Column} (h : List.Sublist col' col) :
    placeholderCount col' ≤ placeholderCount col :=
  (h.filter isEmptyStateNode).length_le

theorem hasEmptyState_of_sublist {col col' : Column} (h : List.Sublist col' col)
    (h' : hasEmptyState col' = true) : hasEmptyState col = true := by
  rw [hasEmptyState, List.any_eq_true] at h' ⊢
  obtain ⟨x, hx, hp⟩ := h'
  exact ⟨x, h.subset hx, hp⟩

theorem hasTaskItem_of_sublist {col col' : Column} (h : List.Sublist col' col)
    (h' : hasTaskItem col' = true) : hasTaskItem col = true := by
  rw [hasTaskItem, List.any_eq_true] at h' ⊢
  obtain ⟨x, hx, hp⟩ := h'
  exact ⟨x, h.subset hx, hp⟩

/-- The invariant survives deleting nodes. -/
theorem colWellFormed_of_sublist {col col' : Column} (h : List.Sublist col' col)
    (hwf : colWellFormed col) : colWellFormed col' := by
  refine ⟨le_trans (placeholderCount_le_of_sublist h) hwf.1, fun hmix => hwf.2 ?_⟩
  exact ⟨hasEmptyState_of_sublist h hmix.1, hasTaskItem_of_sublist h hmix.2⟩

/-- With at most one placeholder present, removing the first placeholder
leaves none. -/
theorem placeholderCount_removeFirstEmptyState {col : Column}
    (h : placeholderCount col ≤ 1) :
    placeholderCount (removeFirstEmptyState col) = 0 := by
  induction col with
  | nil => rfl
  | cons n rest ih =>
      unfold removeFirstEmptyState
      by_cases hn : isEmptyStateNode n = true
      · rw [if_pos hn]
        have : placeholderCount (n :: rest) = placeholderCount rest + 1 := by
          simp [placeholderCount, hn]
        omega
      · rw [if_neg hn]
        have hcount : placeholderCount (n :: rest) = placeholderCount rest := by
          simp [placeholderCount, hn]
        have hcons : placeholderCount (n :: removeFirstEmptyState rest)
            = placeholderCount (removeFirstEmptyState rest) := by
          simp [placeholderCount, hn]
        rw [hcons]
        exact ih (by omega)

theorem placeholderCount_eq_zero_iff {col : Column} :
    placeholderCount col = 0 ↔ hasEmptyState col = false := by
  induction col with
  | nil => simp [placeholderCount, hasEmptyState]
  | cons n rest ih =>
      by_cases hn : isEmptyStateNode n = true
      · simp [placeholderCount, hasEmptyState, hn]
      · simp only [placeholderCount, hasEmptyState] at ih ⊢
        simp [List.filter_cons, hn, ih]

theorem placeholderCount_append_task (col : Column) (t : Task) :
    placeholderCount (col ++ [Node.taskItem t]) = placeholderCount col := by
  simp [placeholderCount, List.filter_append, isEmptyStateNode]

/-- Appending a card through `addTaskToColumn` from an at-most-one-placeholder
state leaves no placeholder and a visible card. -/
theorem addTaskToColumn_clears_placeholder {col : Column} (t : Task)
    (h : placeholderCount col ≤ 1) :
    hasEmptyState (addTaskToColumn t col) = false
    ∧ hasTaskItem (addTaskToColumn t col) = true := by
  constructor
  · rw [← placeholderCount_eq_zero_iff, addTaskToColumn, placeholderCount_append_task]
    exact placeholderCount_removeFirstEmptyState h
  · rw [addTaskToColumn, hasTaskItem, List.any_append]
    simp [isEmptyStateNode]

theorem colWellFormed_addTaskToColumn {col : Column} (t : Task)
    (h : colWellFormed col) : colWellFormed (addTaskToColumn t col) := by
  obtain ⟨hempty, htask⟩ := addTaskToColumn_clears_placeholder t h.1
  constructor
  · have h0 : placeholderCount (addTaskToColumn t col) = 0 :=
      placeholderCount_eq_zero_iff.mpr hempty
    omega
  · intro hmix
    rw [hempty] at hmix
    exact absurd hmix.1 (by simp)

theorem colWellFormed_checkEmptyColumn (c : ColId) {col : Column}
    (h : colWellFormed col) : colWellFormed (checkEmptyColumn c col) := by
  unfold checkEmptyColumn
  by_cases hlen : col.length = 0
  · rw [if_pos hlen]
    exact ⟨by simp [placeholderCount, isEmptyStateNode],
      by simp [hasTaskItem, isEmptyStateNode]⟩
  · rw [if_neg hlen]; exact h

theorem colWellFormed_removeFirstTaskWithId (tid : String) {col : Column}
    (h : colWellFormed col) : colWellFormed (removeFirstTaskWithId tid col) :=
  colWellFormed_of_sublist (removeFirstTaskWithId_sublist tid col) h

/-- Claim C6: starting from columns satisfying the empty-column
invariant (at most one placeholder, never a placeholder next to a card)
— as the board does after any mutation-plus-check — running
`checkEmptyColumns` turns each column that has zero children into exactly
one placeholder bearing that column's fixed message and preserves the
invariant; `addTaskToDOM` preserves the invariant and leaves the target
column with no placeholder and a visible card; removing a card preserves
the invariant — so no column ever shows both a placeholder and a task. -/
theorem emptyColumnPolicy (b : Columns) (hb : boardWellFormed b) :
    (∀ c : ColId, getCol b c = [] →
        getCol (checkEmptyColumns b) c = [Node.emptyState (emptyStateMessages c)])
    ∧ boardWellFormed (checkEmptyColumns b)
    ∧ (∀ t : Task, boardWellFormed (addTaskToDOM t b)
        ∧ ∀ c : ColId, colOfStatus t.status = some c →
            hasEmptyState (getCol (addTaskToDOM t b) c) = false
            ∧ hasTaskItem (getCol (addTaskToDOM t b) c) = true)
    ∧ (∀ tid : String, boardWellFormed (removeTaskFromDOM tid b)) := by
  obtain ⟨h1, h2, h3⟩ := hb
  refine ⟨?_, ?_, ?_, ?_⟩
  · intro c hc
    cases c <;> simp only [getCol] at hc <;>
      simp [checkEmptyColumns, checkEmptyColumn, getCol, hc]
  · exact ⟨colWellFormed_checkEmptyColumn _ h1, colWellFormed_checkEmptyColumn _ h2,
      colWellFormed_checkEmptyColumn _ h3⟩
  · intro t
    unfold addTaskToDOM
    cases hcs : colOfStatus t.status with
    | none => exact ⟨⟨h1, h2, h3⟩, fun c hc => by simp at hc⟩
    | some c =>
        cases c with
        | todo =>
            refine ⟨⟨colWellFormed_addTaskToColumn t h1, h2, h3⟩, fun c' hc' => ?_⟩
            cases hc'
            exact addTaskToColumn_clears_placeholder t h1.1
        | doing =>
            refine ⟨⟨h1, colWellFormed_addTaskToColumn t h2, h3⟩, fun c' hc' => ?_⟩
            cases hc'
            exact addTaskToColumn_clears_placeholder t h2.1
        | done =>
            refine ⟨⟨h1, h2, colWellFormed_addTaskToColumn t h3⟩, fun c' hc' => ?_⟩
            cases hc'
            exact addTaskToColumn_clears_placeholder t h3.1
  · intro tid
    unfold removeTaskFromDOM
    by_cases ht : b.todo.any (nodeHasTaskId tid) = true
    · rw [if_pos ht]
      exact ⟨colWellFormed_removeFirstTaskWithId tid h1, h2, h3⟩
    · rw [if_neg ht]
      by_cases hd : b.doing.any (nodeHasTaskId tid) = true
      · rw [if_pos hd]
        exact ⟨h1, colWellFormed_removeFirstTaskWithId tid h2, h3⟩
      · rw [if_neg hd]
        by_cases hn : b.done.any (nodeHasTaskId tid) = true
        · rw [if_pos hn]
          exact ⟨h1, h2, colWellFormed_removeFirstTaskWithId tid h3⟩
        · rw [if_neg hn]
          exact ⟨h1, h2, h3⟩

theorem emptyColumnPolicy_witness :
    boardWellFormed ⟨[], [], []⟩
    ∧ getCol (checkEmptyColumns ⟨[], [], []⟩) ColId.todo
        = [Node.emptyState "No hay tareas pendientes"] :=
  ⟨by decide, (emptyColumnPolicy ⟨[], [], []⟩ (by decide)).1 ColId.todo rfl⟩

/-! ## Registration mismatch -/

/-- Claim C7 counterexample: all six fields non-empty and the password
and confirmation differ (`"abc"` vs `"xyz"`), yet the handler's message
is the password-policy text — checked before the mismatch comparison —
and not the literal mismatch text.  (No network call is issued.) -/
theorem registerMismatchCounterexample :
    strTrim "abc" ≠ strTrim "xyz"
    ∧ (registerSubmit "ana" "diaz" "2000-01-01" "a@b.com" "abc" "xyz").message
        = "La contraseña debe tener mínimo 8 caracteres, incluir mayúsculas, minúsculas, números y símbolos."
    ∧ (registerSubmit "ana" "diaz" "2000-01-01" "a@b.com" "abc" "xyz").message
        ≠ "Las contraseñas no coinciden."
    ∧ (registerSubmit "ana" "diaz" "2000-01-01" "a@b.com" "abc" "xyz").networkCall
        = none := by
  decide

/-- Claim C7 amended: with all six trimmed fields non-empty and the
password and confirmation different, the handler rejects locally and
issues no network call; the message is the literal mismatch text
provided the password also passes the strength regex (otherwise the
regex rejection fires first with its own message). -/
theorem registerMismatchAmended (u l b e p c : String)
    (hu : strTrim u ≠ "") (hl : strTrim l ≠ "") (hb : strTrim b ≠ "")
    (he : strTrim e ≠ "") (hp : strTrim p ≠ "") (hc : strTrim c ≠ "")
    (hne : strTrim p ≠ strTrim c) :
    (registerSubmit u l b e p c).networkCall = none
    ∧ (passwordRegexTest (strTrim p) = true →
        (registerSubmit u l b e p c).message = "Las contraseñas no coinciden.") := by
  simp only [registerSubmit]
  rw [if_neg (by tauto)]
  by_cases hreg : passwordRegexTest (strTrim p) = true
  · rw [if_neg (by simp [hreg]), if_pos hne]
    exact ⟨rfl, fun _ => rfl⟩
  · rw [if_pos (by simpa using hreg)]
    exact ⟨rfl, fun h => absurd h hreg⟩

theorem registerMismatchAmended_witness :
    (strTrim "Ana" ≠ "" ∧ strTrim "Diaz" ≠ "" ∧ strTrim "2000-01-01" ≠ ""
      ∧ strTrim "a@b.com" ≠ "" ∧ strTrim "Abcdef1!" ≠ "" ∧ strTrim "Abcdef1?" ≠ ""
      ∧ strTrim "Abcdef1!" ≠ strTrim "Abcdef1?"
      ∧ passwordRegexTest (strTrim "Abcdef1!") = true)
    ∧ ((registerSubmit "Ana" "Diaz" "2000-01-01" "a@b.com" "Abcdef1!" "Abcdef1?").networkCall
        = none
      ∧ (registerSubmit "Ana" "Diaz" "2000-01-01" "a@b.com" "Abcdef1!" "Abcdef1?").message
        = "Las contraseñas no coinciden.") := by
  have h := registerMismatchAmended "Ana" "Diaz" "2000-01-01" "a@b.com" "Abcdef1!" "Abcdef1?"
    (by decide) (by decide) (by decide) (by decide) (by decide) (by decide) (by decide)
  exact ⟨⟨by decide, by decide, by decide, by decide, by decide, by decide, by decide,
    by decide⟩, h.1, h.2 (by decide)⟩

end ListarTareas
